import Mathlib

/-!
Verification development for the figure-sizing and axis-labelling logic of
`latex_plotter.py` (class `LaTeXPlotter`).

Modelling conventions:
* Python `int` is embedded as `ℤ`; Python `float` arithmetic is embedded as
  exact rational arithmetic over `ℚ`. Decimal literals of the source are
  written as the equal rational fractions (`0.8 = 4/5`, `0.9 = 9/10`,
  `2.5 = 5/2`, `1.5 = 3/2`, `1.25 = 5/4`, `2.54 = 127/50`, `6.25 = 25/4`,
  `9.8415 = 98415/10000`) so that every definition stays kernel-executable.
* A grid shape `(rows, cols)` is `ℤ × ℤ`; computed dimensions are `ℚ × ℚ`.
* Python's `**` on a float base and an integer exponent is `zpow`
  (`(4/5 : ℚ) ^ (e : ℤ)`), which, like Python, is defined for negative
  exponents whenever the base is nonzero.
* Code points where CPython's float arithmetic can raise — `x / 0` and
  `0.0 ** negative` (`ZeroDivisionError`), and a `**` whose result exceeds
  IEEE-754 binary64 range (`OverflowError`) — are made explicit in a checked
  variant returning `Option`, with `none` standing for a raised error.
* Matplotlib state touched by the class is modelled explicitly: the global
  `rcParams` as `PlotterState`, an axes object as `AxesState`, and the
  `plt.subplots` request issued by `create_figure` as `FigureRequest`.
-/

namespace LaTeXPlotter

/-- The `base_width_cm = 15.0` local constant of `_calculate_dimensions`. -/
def base_width_cm : ℚ := 15

/-- The `special_aspects` dict of `_calculate_dimensions`: a finite map from
grid shapes to width:height aspect values, with the eight entries of the
source, in source order (`3.0, 2.5, 1.5, 1.25, 3.0, 3.0, 3.0, 2.5`). -/
def special_aspects (grid_shape : ℤ × ℤ) : Option ℚ :=
  if grid_shape = (1, 1) then some 3
  else if grid_shape = (2, 1) then some (5 / 2)
  else if grid_shape = (3, 1) then some (3 / 2)
  else if grid_shape = (4, 1) then some (5 / 4)
  else if grid_shape = (1, 2) then some 3
  else if grid_shape = (1, 3) then some 3
  else if grid_shape = (1, 4) then some 3
  else if grid_shape = (2, 2) then some (5 / 2)
  else none

/-- `LaTeXPlotter._calculate_dimensions`: if the shape is a key of
`special_aspects` return `(base_width_cm, base_width_cm / aspect)`; otherwise
apply the geometric-decay fallback with row factor `0.8^(rows-1)`, column
factor `0.9^(cols-1)`, clamped below by `min_width = 8.0` and
`min_height = 4.0`. -/
def _calculate_dimensions (grid_shape : ℤ × ℤ) : ℚ × ℚ :=
  match special_aspects grid_shape with
  | some aspect => (base_width_cm, base_width_cm / aspect)
  | none =>
    let rows := grid_shape.1
    let cols := grid_shape.2
    let row_factor : ℚ := (4 / 5 : ℚ) ^ (rows - 1)
    let col_factor : ℚ := (9 / 10 : ℚ) ^ (cols - 1)
    let width := base_width_cm * col_factor
    let height := (base_width_cm / 3) * row_factor
    let min_width : ℚ := 8
    let min_height : ℚ := 4
    (max width min_width, max height min_height)

/-- The smallest positive real whose IEEE-754 binary64 round-to-nearest-even
rounding is infinite: `2^1024 - 2^970` (halfway between the largest finite
double `2^1024 - 2^971` and `2^1024`; the tie rounds to the even mantissa,
i.e. to infinity). A finite-argument float `**` in CPython raises
`OverflowError` exactly when its correctly rounded result is infinite. -/
def float_overflow_threshold : ℚ := 2 ^ 1024 - 2 ^ 970

/-- Checked variant of `_calculate_dimensions` making the sites where
CPython's float arithmetic can raise explicit: `none` models a raised
exception. The sites in the source are (1) the division
`base_width_cm / aspect_value`, raising `ZeroDivisionError` iff the divisor
is `0.0`; (2) the powers `0.8 ** (rows - 1)` and `0.9 ** (cols - 1)`,
raising `ZeroDivisionError` if the base is `0.0` with a negative exponent,
and `OverflowError` if the result leaves double range — modelled here in
exact rational arithmetic as the value reaching `float_overflow_threshold`.
(The rounding of the float base — `0.8` as a double is not exactly `4/5` —
is not modelled, so the exact cutover exponent of the overflow guard may
differ by a few from CPython's; for every exponent of small magnitude, in
particular all exponents `≥ -1` and everywhere these theorems evaluate the
guard, the model and CPython agree that no raise occurs. The later
multiplications and `max` raise nothing in CPython — float multiplication
overflows silently to `inf` — so they are not raise sites.) -/
def calculate_dimensions_checked (grid_shape : ℤ × ℤ) : Option (ℚ × ℚ) :=
  match special_aspects grid_shape with
  | some aspect =>
    if aspect = 0 then none
    else some (base_width_cm, base_width_cm / aspect)
  | none =>
    let rows := grid_shape.1
    let cols := grid_shape.2
    if ((4 / 5 : ℚ) = 0 ∧ rows - 1 < 0) ∨ ((9 / 10 : ℚ) = 0 ∧ cols - 1 < 0) then
      none
    else if float_overflow_threshold ≤ (4 / 5 : ℚ) ^ (rows - 1) ∨
        float_overflow_threshold ≤ (9 / 10 : ℚ) ^ (cols - 1) then
      none
    else
      let row_factor : ℚ := (4 / 5 : ℚ) ^ (rows - 1)
      let col_factor : ℚ := (9 / 10 : ℚ) ^ (cols - 1)
      let width := base_width_cm * col_factor
      let height := (base_width_cm / 3) * row_factor
      let min_width : ℚ := 8
      let min_height : ℚ := 4
      some (max width min_width, max height min_height)

/-- The matplotlib process-wide state visible to a `LaTeXPlotter` instance:
`plt.rcParams`, an association of option names to values. The class itself
stores no instance attributes. -/
structure PlotterState where
  rcParams : List (String × String)

/-- `_calculate_dimensions` as the method it is in the source: it receives
`self` but reads no attribute of it and mutates nothing, so the result
depends only on `grid_shape` and the state is returned unchanged. -/
def calculate_dimensions_method (self : PlotterState) (grid_shape : ℤ × ℤ) :
    (ℚ × ℚ) × PlotterState :=
  (_calculate_dimensions grid_shape, self)

/-- The `plt.subplots(*grid_shape, figsize=...)` request that `create_figure`
issues: the grid shape passed through and the figure size in inches. -/
structure FigureRequest where
  nrows : ℤ
  ncols : ℤ
  figsize : ℚ × ℚ

/-- `LaTeXPlotter.create_figure`: compute `(width_cm, height_cm)` via
`_calculate_dimensions`, then request a figure of size
`(width_cm / 2.54, height_cm / 2.54)` (centimeters to inches) for the given
grid shape. `2.54 = 127/50`. -/
def create_figure (grid_shape : ℤ × ℤ) : FigureRequest :=
  let wh := _calculate_dimensions grid_shape
  { nrows := grid_shape.1
    ncols := grid_shape.2
    figsize := (wh.1 / (127 / 50), wh.2 / (127 / 50)) }

/-- The state of one matplotlib axes object, restricted to the fields the
class touches: the two labels with their `loc` settings, the spine settings,
the grid settings, and the y-label coordinates. -/
structure AxesState where
  xlabel : String
  ylabel : String
  xlabel_loc : String
  ylabel_loc : String
  spines_top_visible : Bool
  spines_right_visible : Bool
  spines_left_position : String
  grid_on : Bool
  grid_linestyle : String
  grid_alpha : ℚ
  grid_color : String
  ylabel_coords : ℚ × ℚ

/-- `LaTeXPlotter._setup_axes`: hide top/right spines, pin the left spine to
zero, enable the dotted half-alpha light-gray grid, set the default labels
`$x$, sec` and `$y$, rad` centered, and place the y-label at `(-0.1, 0.98)`.
(`0.5 = 1/2`, `-0.1 = -1/10`, `0.98 = 98/100`.) -/
def _setup_axes (ax : AxesState) : AxesState :=
  { ax with
    spines_top_visible := false
    spines_right_visible := false
    spines_left_position := "zero"
    grid_on := true
    grid_linestyle := ":"
    grid_alpha := 1 / 2
    grid_color := "#D3D3D3"
    xlabel := "$x$, sec"
    xlabel_loc := "center"
    ylabel := "$y$, rad"
    ylabel_loc := "center"
    ylabel_coords := (-1 / 10, 98 / 100) }

/-- `LaTeXPlotter.set_axis_labels`: when `xlabel` is not `None`, set the
x-label to the f-string `f"$\x7bxlabel\x7d$, \x7bxunits\x7d"`, i.e.
`"$" ++ xlabel ++ "$, " ++ xunits`, centered; likewise for `ylabel` with
`yunits`. A `none` argument leaves that axis label untouched. In the source
`xunits` and `yunits` default to `"sec"` and `"rad"`; here they are explicit
arguments. -/
def set_axis_labels (ax : AxesState) (xlabel ylabel : Option String)
    (xunits yunits : String) : AxesState :=
  let ax1 :=
    match xlabel with
    | some s => { ax with xlabel := "$" ++ s ++ "$, " ++ xunits, xlabel_loc := "center" }
    | none => ax
  match ylabel with
  | some s => { ax1 with ylabel := "$" ++ s ++ "$, " ++ yunits, ylabel_loc := "center" }
  | none => ax1

/-- A concrete axes state (the defaults produced by `_setup_axes` on an
all-default axes), used as the concrete input of witnesses. -/
def default_axes : AxesState :=
  { xlabel := "$x$, sec"
    ylabel := "$y$, rad"
    xlabel_loc := "center"
    ylabel_loc := "center"
    spines_top_visible := false
    spines_right_visible := false
    spines_left_position := "zero"
    grid_on := true
    grid_linestyle := ":"
    grid_alpha := 1 / 2
    grid_color := "#D3D3D3"
    ylabel_coords := (-1 / 10, 98 / 100) }

/-! ### Helper lemmas shared by the claim theorems -/

/-- Every value stored in `special_aspects` is one of `3`, `5/2`, `3/2`,
`5/4`. -/
theorem special_aspects_values (s : ℤ × ℤ) (a : ℚ)
    (h : special_aspects s = some a) :
    a = 3 ∨ a = 5 / 2 ∨ a = 3 / 2 ∨ a = 5 / 4 := by
  unfold special_aspects at h
  split_ifs at h <;> simp_all

/-- On a shape outside the aspect table, `_calculate_dimensions` equals the
clamped geometric-decay formula. -/
theorem calc_dims_fallback (rows cols : ℤ)
    (h : special_aspects (rows, cols) = none) :
    _calculate_dimensions (rows, cols) =
      (max (15 * (9 / 10 : ℚ) ^ (cols - 1)) 8,
       max (5 * (4 / 5 : ℚ) ^ (rows - 1)) 4) := by
  unfold _calculate_dimensions
  rw [h]
  norm_num [base_width_cm]

/-- The returned width is at least `8` and the returned height at least `4`,
for every shape whatsoever. -/
theorem dims_lower_bound (s : ℤ × ℤ) :
    8 ≤ (_calculate_dimensions s).1 ∧ 4 ≤ (_calculate_dimensions s).2 := by
  unfold _calculate_dimensions
  rcases h : special_aspects s with _ | a
  · exact ⟨le_max_right _ _, le_max_right _ _⟩
  · rcases special_aspects_values s a h with h3 | h3 | h3 | h3 <;>
      subst h3 <;> norm_num [base_width_cm]

/-- A power of a base in `(0, 1]` with nonnegative exponent is at most `1`,
hence below the float overflow threshold. -/
theorem zpow_lt_threshold (b : ℚ) (hb0 : 0 ≤ b) (hb1 : b ≤ 1) (e : ℤ)
    (he : 0 ≤ e) : b ^ e < float_overflow_threshold := by
  lift e to ℕ using he
  rw [zpow_natCast]
  calc b ^ e ≤ 1 := pow_le_one₀ hb0 hb1
  _ < float_overflow_threshold := by norm_num [float_overflow_threshold]

/-- When neither power reaches the overflow threshold the checked variant
raises nothing: it returns `some (_calculate_dimensions s)`, because the
power bases `0.8` and `0.9` and every stored aspect value are nonzero. -/
theorem calculate_dimensions_checked_eq (rows cols : ℤ)
    (hrow : (4 / 5 : ℚ) ^ (rows - 1) < float_overflow_threshold)
    (hcol : (9 / 10 : ℚ) ^ (cols - 1) < float_overflow_threshold) :
    calculate_dimensions_checked (rows, cols) =
      some (_calculate_dimensions (rows, cols)) := by
  unfold calculate_dimensions_checked _calculate_dimensions
  rcases h : special_aspects (rows, cols) with _ | a
  · norm_num [not_le.mpr hrow, not_le.mpr hcol]
  · have ha : ¬a = 0 := by
      rcases special_aspects_values (rows, cols) a h with h3 | h3 | h3 | h3 <;>
        subst h3 <;> norm_num
    simp [ha]

/-! ### Claim theorems -/

/-- C1: for every grid shape in the aspect table the returned dimensions are
exactly `(15.0, 15.0 / aspect)`: `(1,1) ↦ (15, 15/3) = (15, 5)`,
`(2,1) ↦ (15, 15/2.5) = (15, 6)`, `(3,1) ↦ (15, 15/1.5) = (15, 10)`,
`(4,1) ↦ (15, 15/1.25) = (15, 12)`, `(1,2), (1,3), (1,4) ↦ (15, 5)`,
`(2,2) ↦ (15, 6)`. -/
theorem special_dimensions_exact :
    special_aspects (1, 1) = some 3 ∧
    special_aspects (2, 1) = some (5 / 2) ∧
    special_aspects (3, 1) = some (3 / 2) ∧
    special_aspects (4, 1) = some (5 / 4) ∧
    special_aspects (1, 2) = some 3 ∧
    special_aspects (1, 3) = some 3 ∧
    special_aspects (1, 4) = some 3 ∧
    special_aspects (2, 2) = some (5 / 2) ∧
    _calculate_dimensions (1, 1) = (15, 15 / 3) ∧
    _calculate_dimensions (2, 1) = (15, 15 / (5 / 2)) ∧
    _calculate_dimensions (3, 1) = (15, 15 / (3 / 2)) ∧
    _calculate_dimensions (4, 1) = (15, 15 / (5 / 4)) ∧
    _calculate_dimensions (1, 2) = (15, 15 / 3) ∧
    _calculate_dimensions (1, 3) = (15, 15 / 3) ∧
    _calculate_dimensions (1, 4) = (15, 15 / 3) ∧
    _calculate_dimensions (2, 2) = (15, 15 / (5 / 2)) ∧
    _calculate_dimensions (1, 1) = (15, 5) ∧
    _calculate_dimensions (2, 2) = (15, 6) := by
  norm_num [_calculate_dimensions, special_aspects, base_width_cm]

/-- C2: on every shape with `rows ≥ 1`, `cols ≥ 1` outside the aspect table,
the result is `(max (15 * 0.9^(cols-1)) 8, max (5 * 0.8^(rows-1)) 4)`; in
particular `(5,5) ↦ (9.8415, 4.0)` (`9.8415 = 98415/10000`, height
clamped). -/
theorem fallback_dimensions_formula (rows cols : ℤ)
    (hr : 1 ≤ rows) (hc : 1 ≤ cols)
    (h : special_aspects (rows, cols) = none) :
    _calculate_dimensions (rows, cols) =
      (max (15 * (9 / 10 : ℚ) ^ (cols - 1)) 8,
       max (5 * (4 / 5 : ℚ) ^ (rows - 1)) 4) ∧
    _calculate_dimensions (5, 5) = (98415 / 10000, 4) := by
  refine ⟨calc_dims_fallback rows cols h, ?_⟩
  norm_num [_calculate_dimensions, special_aspects, base_width_cm, max_def]

/-- Witness for C2 at the concrete shape `(5, 5)`. -/
theorem fallback_dimensions_formula_witness :
    (1 : ℤ) ≤ 5 ∧ special_aspects (5, 5) = none ∧
    _calculate_dimensions (5, 5) =
      (max (15 * (9 / 10 : ℚ) ^ ((5 : ℤ) - 1)) 8,
       max (5 * (4 / 5 : ℚ) ^ ((5 : ℤ) - 1)) 4) ∧
    _calculate_dimensions (5, 5) = (98415 / 10000, 4) :=
  ⟨by norm_num, rfl,
   (fallback_dimensions_formula 5 5 (by norm_num) (by norm_num) rfl).1,
   (fallback_dimensions_formula 5 5 (by norm_num) (by norm_num) rfl).2⟩

/-- C3: for every shape with `rows ≥ 1` and `cols ≥ 1`, on both the lookup
path and the fallback path, the returned dimensions satisfy `width ≥ 8.0`
and `height ≥ 4.0`. -/
theorem dimensions_min_bounds (rows cols : ℤ)
    (hr : 1 ≤ rows) (hc : 1 ≤ cols) :
    8 ≤ (_calculate_dimensions (rows, cols)).1 ∧
    4 ≤ (_calculate_dimensions (rows, cols)).2 :=
  dims_lower_bound (rows, cols)

/-- Witness for C3 at the concrete shape `(7, 3)`. -/
theorem dimensions_min_bounds_witness :
    (1 : ℤ) ≤ 7 ∧ (1 : ℤ) ≤ 3 ∧
    (8 ≤ (_calculate_dimensions (7, 3)).1 ∧
     4 ≤ (_calculate_dimensions (7, 3)).2) :=
  ⟨by norm_num, by norm_num, dimensions_min_bounds 7 3 (by norm_num) (by norm_num)⟩

/-- C4: fallback monotonicity. For fixed `rows`, on non-table shapes the
returned width is non-increasing in `cols`; for fixed `cols`, the returned
height is non-increasing in `rows`. -/
theorem fallback_monotone
    (rows cols1 cols2 : ℤ) (hc1 : 1 ≤ cols1) (hcc : cols1 ≤ cols2)
    (hw1 : special_aspects (rows, cols1) = none)
    (hw2 : special_aspects (rows, cols2) = none)
    (rows1 rows2 cols : ℤ) (hr1 : 1 ≤ rows1) (hrr : rows1 ≤ rows2)
    (hh1 : special_aspects (rows1, cols) = none)
    (hh2 : special_aspects (rows2, cols) = none) :
    (_calculate_dimensions (rows, cols2)).1 ≤
      (_calculate_dimensions (rows, cols1)).1 ∧
    (_calculate_dimensions (rows2, cols)).2 ≤
      (_calculate_dimensions (rows1, cols)).2 := by
  rw [calc_dims_fallback rows cols1 hw1, calc_dims_fallback rows cols2 hw2,
    calc_dims_fallback rows1 cols hh1, calc_dims_fallback rows2 cols hh2]
  constructor
  · have hpow : (9 / 10 : ℚ) ^ (cols2 - 1) ≤ (9 / 10 : ℚ) ^ (cols1 - 1) :=
      zpow_le_zpow_right_of_le_one₀ (by norm_num) (by norm_num) (by omega)
    exact max_le_max (by nlinarith) le_rfl
  · have hpow : (4 / 5 : ℚ) ^ (rows2 - 1) ≤ (4 / 5 : ℚ) ^ (rows1 - 1) :=
      zpow_le_zpow_right_of_le_one₀ (by norm_num) (by norm_num) (by omega)
    exact max_le_max (by nlinarith) le_rfl

/-- Witness for C4: width at `(5,2)` vs `(5,1)`, height at `(2,5)` vs
`(1,5)`. -/
theorem fallback_monotone_witness :
    (1 : ℤ) ≤ 1 ∧ (1 : ℤ) ≤ 2 ∧
    special_aspects (5, 1) = none ∧ special_aspects (5, 2) = none ∧
    special_aspects (1, 5) = none ∧ special_aspects (2, 5) = none ∧
    ((_calculate_dimensions (5, 2)).1 ≤ (_calculate_dimensions (5, 1)).1 ∧
     (_calculate_dimensions (2, 5)).2 ≤ (_calculate_dimensions (1, 5)).2) :=
  ⟨by norm_num, by norm_num, rfl, rfl, rfl, rfl,
   fallback_monotone 5 1 2 (by norm_num) (by norm_num) rfl rfl
     1 2 5 (by norm_num) (by norm_num) rfl rfl⟩

/-- C5: `_calculate_dimensions` is deterministic and stateless: its value
part is independent of the plotter state, the state passes through
unchanged, and an immediately repeated call returns the identical value. -/
theorem calculate_dimensions_deterministic
    (s1 s2 : PlotterState) (shape : ℤ × ℤ) :
    (calculate_dimensions_method s1 shape).1 =
      (calculate_dimensions_method s2 shape).1 ∧
    (calculate_dimensions_method s1 shape).2 = s1 ∧
    (calculate_dimensions_method
        (calculate_dimensions_method s1 shape).2 shape).1 =
      (calculate_dimensions_method s1 shape).1 :=
  ⟨rfl, rfl, rfl⟩

/-- C6: totality. For every shape with `rows ≥ 1`, `cols ≥ 1` the checked
computation returns `some` (no raise), with finite positive dimensions at or
above the documented minimums. -/
theorem calculate_dimensions_total (rows cols : ℤ)
    (hr : 1 ≤ rows) (hc : 1 ≤ cols) :
    ∃ w h, calculate_dimensions_checked (rows, cols) = some (w, h) ∧
      0 < w ∧ 0 < h ∧ 8 ≤ w ∧ 4 ≤ h := by
  obtain ⟨hw, hh⟩ := dims_lower_bound (rows, cols)
  exact ⟨(_calculate_dimensions (rows, cols)).1,
    (_calculate_dimensions (rows, cols)).2,
    by
      rw [calculate_dimensions_checked_eq rows cols
        (zpow_lt_threshold _ (by norm_num) (by norm_num) _ (by omega))
        (zpow_lt_threshold _ (by norm_num) (by norm_num) _ (by omega))],
    by linarith, by linarith, hw, hh⟩

/-- Witness for C6: `(1,1)` succeeds through the lookup path with value
`(15, 5)` and `(100,1)` through the fallback path with value `(15, 4)`. -/
theorem calculate_dimensions_total_witness :
    (1 : ℤ) ≤ 1 ∧ (1 : ℤ) ≤ 100 ∧
    (∃ w h, calculate_dimensions_checked (1, 1) = some (w, h) ∧
      0 < w ∧ 0 < h ∧ 8 ≤ w ∧ 4 ≤ h) ∧
    (∃ w h, calculate_dimensions_checked (100, 1) = some (w, h) ∧
      0 < w ∧ 0 < h ∧ 8 ≤ w ∧ 4 ≤ h) ∧
    special_aspects (1, 1) = some 3 ∧
    special_aspects (100, 1) = none ∧
    calculate_dimensions_checked (1, 1) = some (15, 5) ∧
    calculate_dimensions_checked (100, 1) = some (15, 4) :=
  ⟨by norm_num, by norm_num,
   calculate_dimensions_total 1 1 (by norm_num) (by norm_num),
   calculate_dimensions_total 100 1 (by norm_num) (by norm_num),
   rfl, rfl,
   by norm_num [calculate_dimensions_checked, special_aspects, base_width_cm],
   by norm_num [calculate_dimensions_checked, special_aspects, base_width_cm,
     float_overflow_threshold, max_def]⟩

/-- C7: `create_figure` converts the computed dimensions from centimeters to
inches by dividing each coordinate by `2.54 = 127/50` and passes them as the
requested figure size, the grid shape passing through unchanged; e.g.
`(1,1) ↦ figsize (750/127, 250/127)`. -/
theorem create_figure_figsize_conversion (grid_shape : ℤ × ℤ) :
    (create_figure grid_shape).figsize =
      ((_calculate_dimensions grid_shape).1 / (127 / 50),
       (_calculate_dimensions grid_shape).2 / (127 / 50)) ∧
    (create_figure grid_shape).nrows = grid_shape.1 ∧
    (create_figure grid_shape).ncols = grid_shape.2 ∧
    (create_figure (1, 1)).figsize = (750 / 127, 250 / 127) := by
  refine ⟨rfl, rfl, rfl, ?_⟩
  norm_num [create_figure, _calculate_dimensions, special_aspects,
    base_width_cm]

/-- C8: for every non-`None` symbol `s` and unit string `u`,
`set_axis_labels` writes the label `"$s$, u"` (the symbol wrapped in dollar
signs, then a comma, a space and the unit) on the corresponding axis. -/
theorem set_axis_labels_format (ax : AxesState) (xs ys xu yu : String) :
    (∀ yl, (set_axis_labels ax (some xs) yl xu yu).xlabel =
      "$" ++ xs ++ "$, " ++ xu) ∧
    (∀ xl, (set_axis_labels ax xl (some ys) xu yu).ylabel =
      "$" ++ ys ++ "$, " ++ yu) := by
  constructor
  · intro yl
    cases yl <;> rfl
  · intro xl
    cases xl <;> rfl

/-- C9 (amended): with `rows = 0` the sizing computation need not produce a
division/power anomaly: at the shape `(0, 1)` the power `0.8^(0-1) = 1.25`
is defined (nonzero base, magnitude far below float range), the checked
computation reaches no raise site, and it silently returns the same defined
value `(15, 6.25)` (`6.25 = 25/4`) as the plain computation. -/
theorem nonpositive_shape_defined :
    calculate_dimensions_checked (0, 1) =
      some (_calculate_dimensions (0, 1)) ∧
    _calculate_dimensions (0, 1) = (15, 25 / 4) := by
  constructor
  · exact calculate_dimensions_checked_eq 0 1
      (by norm_num [float_overflow_threshold])
      (by norm_num [float_overflow_threshold])
  · norm_num [_calculate_dimensions, special_aspects, base_width_cm, max_def]

/-- Counterexample to C9 as stated: at `(0, 1)` the checked computation does
not raise — it returns the defined value `(15, 6.25)` (`6.25 = 25/4`, from
`0.8^(-1) = 1.25`), not an anomaly. -/
theorem nonpositive_no_anomaly_counterexample :
    calculate_dimensions_checked (0, 1) = some (15, 25 / 4) ∧
    calculate_dimensions_checked (0, 1) ≠ none := by
  have h1 : calculate_dimensions_checked (0, 1) = some (15, 25 / 4) := by
    norm_num [calculate_dimensions_checked, special_aspects, base_width_cm,
      float_overflow_threshold, max_def]
  exact ⟨h1, by rw [h1]; exact Option.some_ne_none _⟩

/-- C10: frame property of `set_axis_labels`. A `none` xlabel leaves the
x-label and its `loc` unchanged, a `none` ylabel leaves the y-label and its
`loc` unchanged, and no other axes field is ever touched. -/
theorem set_axis_labels_frame (ax : AxesState) (xl yl : Option String)
    (xu yu : String) :
    (xl = none → (set_axis_labels ax xl yl xu yu).xlabel = ax.xlabel ∧
      (set_axis_labels ax xl yl xu yu).xlabel_loc = ax.xlabel_loc) ∧
    (yl = none → (set_axis_labels ax xl yl xu yu).ylabel = ax.ylabel ∧
      (set_axis_labels ax xl yl xu yu).ylabel_loc = ax.ylabel_loc) ∧
    (set_axis_labels ax xl yl xu yu).spines_top_visible =
      ax.spines_top_visible ∧
    (set_axis_labels ax xl yl xu yu).spines_right_visible =
      ax.spines_right_visible ∧
    (set_axis_labels ax xl yl xu yu).spines_left_position =
      ax.spines_left_position ∧
    (set_axis_labels ax xl yl xu yu).grid_on = ax.grid_on ∧
    (set_axis_labels ax xl yl xu yu).grid_linestyle = ax.grid_linestyle ∧
    (set_axis_labels ax xl yl xu yu).grid_alpha = ax.grid_alpha ∧
    (set_axis_labels ax xl yl xu yu).grid_color = ax.grid_color ∧
    (set_axis_labels ax xl yl xu yu).ylabel_coords = ax.ylabel_coords := by
  cases xl <;> cases yl <;> simp [set_axis_labels]

/-- Witness for C10 on the concrete default axes state with a `none` xlabel:
the x-label and an unrelated field are unchanged. -/
theorem set_axis_labels_frame_witness :
    (set_axis_labels default_axes none (some "t") "sec" "rad").xlabel =
      default_axes.xlabel ∧
    (set_axis_labels default_axes none (some "t") "sec" "rad").grid_on =
      default_axes.grid_on :=
  ⟨((set_axis_labels_frame default_axes none (some "t") "sec" "rad").1 rfl).1,
   (set_axis_labels_frame default_axes none (some "t") "sec"
     "rad").2.2.2.2.2.1⟩

end LaTeXPlotter
